import Mathlib

/-!
# Verification of the msposd OSD decoder

Shallow embedding of `src/msposd.py`: the OSD file header layout, the
per-frame glyph grid, the glyph-run value extractors of the two font
variants (Betaflight / iNav), the Betaflight power heuristic (with
Python's list-indexing semantics made explicit), the frame stream
reader's header validation and frame retrieval, and the track builder's
missing-value policies.

Glyph grids are lists of 16-bit codes (as `Nat`) of length
`MAX_T = 60 * 22`, stored column-major (`index = x * MAX_Y + y`) exactly
as in the source.
-/

/-- `MAX_X` from the source: number of grid columns. -/
def MAX_X : Nat := 60

/-- `MAX_Y` from the source: number of grid rows. -/
def MAX_Y : Nat := 22

/-- `MAX_T = MAX_X * MAX_Y`: total number of grid cells. -/
def MAX_T : Nat := MAX_X * MAX_Y

set_option maxRecDepth 100000
set_option maxHeartbeats 3200000

-- Betaflight tag glyph codes (`CharsBetaflight` in the source).
namespace CharsBetaflight

def ALT : Nat := 0x7F
def LAT : Nat := 0x89
def LON : Nat := 0x98
def SPEED : Nat := 0x70

end CharsBetaflight

-- iNav tag glyph codes (`CharsInav` in the source).
namespace CharsInav

def LAT : Nat := 0x03
def LON : Nat := 0x04
def WATT : Nat := 0x71
def ALT : Nat := 0x76
def SPEED_KMPH : Nat := 0x90
def SPEED_MPH : Nat := 0x91
def SPEED_KT : Nat := 0x92

end CharsInav

/-- Default `allowed_chars` of `extract_value`: the byte values of
`b'0123456789.-: '`. -/
def allowedDefault : List Nat := [48, 49, 50, 51, 52, 53, 54, 55, 56, 57, 46, 45, 58, 32]

/-- The byte values of `digits = b'0123456789'`. -/
def digitsCodes : List Nat := [48, 49, 50, 51, 52, 53, 54, 55, 56, 57]

/-- `Frame.cell(x, y)`: the glyph at column `x`, row `y` of the
column-major array (`ar[x * MAX_Y + y]`). -/
def cell (ar : List Nat) (x y : Nat) : Nat :=
  ar.getD (x * MAX_Y + y) 0

/-- `Frame.line(y)`: the full 60-cell row `y`, in column order
(`tuple(ar[x * MAX_Y + y] for x in range(MAX_X))`). -/
def lineOf (ar : List Nat) (y : Nat) : List Nat :=
  (List.range MAX_X).map (fun x => ar.getD (x * MAX_Y + y) 0)

/-- Python `str.strip()` on a list of character codes: drop leading and
trailing whitespace. -/
def pyStrip (l : List Nat) : List Nat :=
  let ws : List Nat := [32, 9, 10, 13, 11, 12]
  ((l.dropWhile (· ∈ ws)).reverse.dropWhile (· ∈ ws)).reverse

/-- Decode a list of character codes to a string (`bytes.decode('ascii')`). -/
def codesToString (l : List Nat) : String :=
  String.mk (l.map Char.ofNat)

/-- The accumulation loop of `FrameBetaflight.extract_value`: walk the
cells, collecting codes while they are in `allowed_chars`, and stop at
the first code outside it, recording it as `next_char`. -/
def walkAllowed (allowed : List Nat) : List Nat → List Nat × Option Nat
  | [] => ([], none)
  | c :: rest =>
    if c ∈ allowed then
      let r := walkAllowed allowed rest
      (c :: r.1, r.2)
    else ([], some c)

/-- `FrameBetaflight.extract_value(tag, reverse, allowed_chars)`:
find the first cell equal to `tag` in flat (column-major) order,
take its row, optionally reverse it (mirroring the column index), walk
from the position after the tag collecting allowed codes, and return the
stripped text with the terminator (`next_char`); in the reverse case the
accumulated text is re-reversed and the terminator is the tag itself.
`none` models the Python result `(None, None)` when the tag is absent. -/
def bfExtractValue (ar : List Nat) (tag : Nat) (reverse : Bool) (allowed : List Nat) :
    Option (String × Option Nat) :=
  match ar.findIdx? (fun c => c == tag) with
  | none => none
  | some idx =>
    let x := idx / MAX_Y
    let y := idx % MAX_Y
    let line0 := lineOf ar y
    let line := if reverse then line0.reverse else line0
    let x1 := if reverse then MAX_X - 1 - x else x
    let w := walkAllowed allowed (line.drop (x1 + 1))
    let sl := if reverse then w.1.reverse else w.1
    let nextChar := if reverse then some tag else w.2
    some (codesToString (pyStrip sl), nextChar)

/-- One iteration of the split-digit handling of
`FrameInav.extract_value`: given the scan direction, the `half_point`
flag and the current glyph, produce the expanded character codes `chs`
and the updated `half_point` flag, exactly as the source's
`if reverse: ... else: ...` block does. -/
def inavExpand (reverse : Bool) (hp : Bool) (ch : Nat) : List Nat × Bool :=
  if reverse then
    if 0xA1 ≤ ch ∧ ch ≤ 0xAA then
      if hp then ([ch - 0xA1 + 48], false) else ([46, ch - 0xA1 + 48], hp)
    else if 0xB1 ≤ ch ∧ ch ≤ 0xBA then ([ch - 0xB1 + 48, 46], true)
    else ([ch], false)
  else
    if 0xA1 ≤ ch ∧ ch ≤ 0xAA then ([ch - 0xA1 + 48, 46], true)
    else if 0xB1 ≤ ch ∧ ch ≤ 0xBA then
      if hp then ([ch - 0xB1 + 48], false) else ([46, ch - 0xB1 + 48], hp)
    else ([ch], false)

/-- The accumulation loop of `FrameInav.extract_value`: expand each
glyph through the split-digit rule, extend the accumulator when every
expanded code is allowed, and otherwise stop recording the raw glyph as
`next_char`. -/
def inavWalk (reverse : Bool) (allowed : List Nat) : Bool → List Nat → List Nat × Option Nat
  | _, [] => ([], none)
  | hp, c :: rest =>
    let e := inavExpand reverse hp c
    if e.1.all (· ∈ allowed) then
      let r := inavWalk reverse allowed e.2 rest
      (e.1 ++ r.1, r.2)
    else ([], some c)

/-- `FrameInav.extract_value(tag, reverse, allowed_chars)`: as the
Betaflight version but with split-digit expansion during the walk
(`half_point` starts `False`). -/
def inavExtractValue (ar : List Nat) (tag : Nat) (reverse : Bool) (allowed : List Nat) :
    Option (String × Option Nat) :=
  match ar.findIdx? (fun c => c == tag) with
  | none => none
  | some idx =>
    let x := idx / MAX_Y
    let y := idx % MAX_Y
    let line0 := lineOf ar y
    let line := if reverse then line0.reverse else line0
    let x1 := if reverse then MAX_X - 1 - x else x
    let w := inavWalk reverse allowed false (line.drop (x1 + 1))
    let sl := if reverse then w.1.reverse else w.1
    let nextChar := if reverse then some tag else w.2
    some (codesToString (pyStrip sl), nextChar)

/-- `FrameInav.extract_lat`: forward scan from `CharsInav.LAT`. -/
def inavExtractLat (ar : List Nat) : Option (String × Option Nat) :=
  inavExtractValue ar CharsInav.LAT false allowedDefault

/-- `FrameInav.extract_lon`: forward scan from `CharsInav.LON`. -/
def inavExtractLon (ar : List Nat) : Option (String × Option Nat) :=
  inavExtractValue ar CharsInav.LON false allowedDefault

/-- `FrameInav.extract_alt`: backward scan from `CharsInav.ALT`. -/
def inavExtractAlt (ar : List Nat) : Option (String × Option Nat) :=
  inavExtractValue ar CharsInav.ALT true allowedDefault

/-- Python truthiness of an `extract_value` result (`if v:`): a found,
non-empty value string. -/
def pyTruthy : Option (String × Option Nat) → Bool
  | some (s, _) => s ≠ ""
  | none => false

/-- `FrameInav.extract_speed`: try the km/h, mph and knots tags in that
order, each with a backward scan; return the first result whose value
string is truthy (non-`None` and non-empty), else `(None, None)`. -/
def inavExtractSpeed (ar : List Nat) : Option (String × Option Nat) :=
  let r1 := inavExtractValue ar CharsInav.SPEED_KMPH true allowedDefault
  if pyTruthy r1 then r1 else
  let r2 := inavExtractValue ar CharsInav.SPEED_MPH true allowedDefault
  if pyTruthy r2 then r2 else
  let r3 := inavExtractValue ar CharsInav.SPEED_KT true allowedDefault
  if pyTruthy r3 then r3 else none

/-- `FrameInav.extract_power`: backward scan from `CharsInav.WATT`. -/
def inavExtractPower (ar : List Nat) : Option (String × Option Nat) :=
  inavExtractValue ar CharsInav.WATT true allowedDefault

/-- Build a grid whose row 0 holds the given codes (padded with blanks)
and whose other cells are all blank, in column-major layout. -/
def mkGridRow0 (row : List Nat) : List Nat :=
  (List.range MAX_T).map (fun i => if i % MAX_Y == 0 then row.getD (i / MAX_Y) 0 else 0)

example : inavExtractValue (mkGridRow0 [3, 49, 50, 51]) 3 false allowedDefault
    = some ("123", some 0) := by decide

/-- Python `ar[i]` on a list: negative indices count from the end
(`i + len`), and an index out of `[-len, len)` raises `IndexError`
(modelled as `none`). -/
def pyGetWrap (ar : List Nat) (i : Int) : Option Nat :=
  if i < 0 then
    if i + ar.length < 0 then none else ar.get? (i + ar.length).toNat
  else ar.get? i.toNat

/-- The digit collection of `FrameBetaflight.extract_power` after a
candidate is accepted at column `x`: walking `i` from `x` down to `0`
and inserting each digit at the front collects, in column order, every
ASCII digit of the row at a column `≤ x`. -/
def rowDigits (line : List Nat) (x : Nat) : List Nat :=
  (line.take (x + 1)).filter (· ∈ digitsCodes)

/-- The scan loop of `FrameBetaflight.extract_power`, with structural
fuel (`fuel` bounds the remaining indices): look for the ASCII glyph
`'W'` (87); at a candidate, test `ar[idx - MAX_Y]` (Python semantics: a
negative index wraps) for an ASCII digit and then `ar[idx + MAX_Y]` for
blank (0) or space; on acceptance return the row's collected digits
with `'W'` as terminator; an out-of-range access is `Except.error ()`
(Python `IndexError`); falling off the end of the array returns
`(None, None)`. -/
def extractPowerGo (ar : List Nat) : Nat → Nat → Except Unit (Option (String × Nat))
  | 0, _ => Except.ok none
  | fuel + 1, idx =>
    if idx < ar.length then
      if ar.getD idx 0 = 87 then
        match pyGetWrap ar ((idx : Int) - MAX_Y) with
        | none => Except.error ()
        | some c1 =>
          if c1 ∈ digitsCodes then
            match pyGetWrap ar ((idx : Int) + MAX_Y) with
            | none => Except.error ()
            | some c2 =>
              if c2 = 0 ∨ c2 = 32 then
                Except.ok (some (codesToString (rowDigits (lineOf ar (idx % MAX_Y)) (idx / MAX_Y)), 87))
              else extractPowerGo ar fuel (idx + 1)
          else extractPowerGo ar fuel (idx + 1)
      else extractPowerGo ar fuel (idx + 1)
    else Except.ok none

/-- The scan of `FrameBetaflight.extract_power` from flat index `idx`
on (the fuel `ar.length - idx` covers every remaining index). -/
def extractPowerFrom (ar : List Nat) (idx : Nat) : Except Unit (Option (String × Nat)) :=
  extractPowerGo ar (ar.length - idx) idx

/-- `FrameBetaflight.extract_power`: scan the whole flat (column-major)
array from index 0. -/
def extractPower (ar : List Nat) : Except Unit (Option (String × Nat)) :=
  extractPowerFrom ar 0

/-- `FrameBetaflight.extract_lat`: forward scan from `CharsBetaflight.LAT`. -/
def bfExtractLat (ar : List Nat) : Option (String × Option Nat) :=
  bfExtractValue ar CharsBetaflight.LAT false allowedDefault

/-- `FrameBetaflight.extract_alt`: forward scan from `CharsBetaflight.ALT`. -/
def bfExtractAlt (ar : List Nat) : Option (String × Option Nat) :=
  bfExtractValue ar CharsBetaflight.ALT false allowedDefault

/-!
## File header and frame stream reader
-/

/-- The field byte widths of `Reader.HEADER_FMT = b'<7sHBBBBHHB'`
(7-byte magic, u16 version, four u8s, two u16s, u8 font variant);
with `<` there is no alignment padding, so `struct.calcsize` is their
sum. -/
def headerFmtFieldSizes : List Nat := [7, 2, 1, 1, 1, 1, 2, 2, 1]

/-- `Reader.HEADER_SIZE = struct.calcsize(Reader.HEADER_FMT)`. -/
def readerHeaderSize : Nat := headerFmtFieldSizes.sum

/-- The field byte widths of `Frame.HEADER_FMT = b'<II'`. -/
def frameFmtFieldSizes : List Nat := [4, 4]

/-- `Frame.HEADER_SIZE = struct.calcsize(Frame.HEADER_FMT)`. -/
def frameHeaderSize : Nat := frameFmtFieldSizes.sum

/-- `frame_data_size = Frame.HEADER_SIZE + MAX_T * 2` in
`Reader.get_frame`. -/
def frameDataSize : Nat := frameHeaderSize + MAX_T * 2

/-- The absolute byte position `Reader.get_frame` seeks to for frame
`index`: `self.HEADER_SIZE + frame_data_size * index`. -/
def frameOffset (index : Nat) : Nat := readerHeaderSize + frameDataSize * index

/-- The parsed global file header (`Reader._header`). -/
structure OsdHeader where
  magic : List Nat
  version : Nat
  char_width : Nat
  char_height : Nat
  font_width : Nat
  font_height : Nat
  x_offset : Nat
  y_offset : Nat
  font_variant : Nat
deriving DecidableEq

/-- The byte values of `OSD_MAGIC = b'MSPOSD\x00'`. -/
def osdMagic : List Nat := [77, 83, 80, 79, 83, 68, 0]

/-- `OSD_VERSION`. -/
def osdVersion : Nat := 1

/-- The errors the reader can raise, one constructor per Python
exception site. -/
inductive PyError where
  | structError
  | valueErrorMagic
  | valueErrorVersion
  | notImplemented (variant : Nat)
deriving DecidableEq

instance exceptDecEq {ε α : Type} [DecidableEq ε] [DecidableEq α] :
    DecidableEq (Except ε α) := fun a b =>
  match a, b with
  | .error e, .error f =>
    if h : e = f then isTrue (by rw [h]) else isFalse (fun he => h (Except.error.inj he))
  | .ok x, .ok y =>
    if h : x = y then isTrue (by rw [h]) else isFalse (fun he => h (Except.ok.inj he))
  | .error _, .ok _ => isFalse (fun he => Except.noConfusion he)
  | .ok _, .error _ => isFalse (fun he => Except.noConfusion he)

/-- A little-endian u16 from two bytes. -/
def leU16 (b0 b1 : Nat) : Nat := b0 + 256 * b1

/-- A little-endian u32 from four bytes. -/
def leU32 (b0 b1 b2 b3 : Nat) : Nat := b0 + 256 * b1 + 65536 * b2 + 16777216 * b3

/-- `Reader.__init__`: read `HEADER_SIZE` bytes (`struct.unpack` fails
on a short read), unpack the header fields, and reject a wrong magic or
a wrong version; the font variant is NOT examined here. -/
def readerInit (file : List Nat) : Except PyError OsdHeader :=
  let hd := file.take readerHeaderSize
  if hd.length ≠ readerHeaderSize then Except.error PyError.structError
  else
    let header : OsdHeader :=
      { magic := hd.take 7
        version := leU16 (hd.getD 7 0) (hd.getD 8 0)
        char_width := hd.getD 9 0
        char_height := hd.getD 10 0
        font_width := hd.getD 11 0
        font_height := hd.getD 12 0
        x_offset := leU16 (hd.getD 13 0) (hd.getD 14 0)
        y_offset := leU16 (hd.getD 15 0) (hd.getD 16 0)
        font_variant := hd.getD 17 0 }
    if header.magic ≠ osdMagic then Except.error PyError.valueErrorMagic
    else if header.version ≠ osdVersion then Except.error PyError.valueErrorVersion
    else Except.ok header

/-- Split a byte list into little-endian 16-bit words
(`array.array('H', data)`). -/
def leWords : List Nat → List Nat
  | b0 :: b1 :: rest => leU16 b0 b1 :: leWords rest
  | _ => []

/-- The font variant of a decoded frame. -/
inductive FrameKind where
  | betaflight
  | inav
deriving DecidableEq

/-- A decoded frame: per-frame header fields and the glyph array
(`Frame.__init__`), tagged with the subclass `Reader.get_frame`
instantiated. -/
structure FrameData where
  kind : FrameKind
  frame_idx : Nat
  size : Nat
  ar : List Nat
deriving DecidableEq

/-- `Frame.__init__(data)` for a given subclass: unpack `frame_idx` and
`size` from the first 8 bytes and the glyph array from the rest. -/
def frameInit (kind : FrameKind) (data : List Nat) : FrameData :=
  { kind := kind
    frame_idx := leU32 (data.getD 0 0) (data.getD 1 0) (data.getD 2 0) (data.getD 3 0)
    size := leU32 (data.getD 4 0) (data.getD 5 0) (data.getD 6 0) (data.getD 7 0)
    ar := leWords (data.drop frameHeaderSize) }

/-- `Reader.get_frame(index)`: seek to `frameOffset index`, read one
frame block; a short read yields `None` (end of stream); otherwise
dispatch on the header's font variant, raising `NotImplementedError`
for any variant other than BETAFLIGHT (1) and INAV (2). -/
def getFrame (file : List Nat) (header : OsdHeader) (index : Nat) :
    Except PyError (Option FrameData) :=
  let frameData := (file.drop (frameOffset index)).take frameDataSize
  if frameData.length ≠ frameDataSize then Except.ok none
  else if header.font_variant = 1 then Except.ok (some (frameInit FrameKind.betaflight frameData))
  else if header.font_variant = 2 then Except.ok (some (frameInit FrameKind.inav frameData))
  else Except.error (PyError.notImplemented header.font_variant)

/-!
## Track builder
-/

/-- The five optional extraction results of one frame, with its
`frame_idx` (the inputs of one iteration of the loop in
`Track.__init__`). -/
structure FrameVals where
  frameIdx : Nat
  lat : Option String
  lon : Option String
  alt : Option String
  spd : Option String
  pwr : Option String
deriving DecidableEq

/-- One output row `[lat, lon, alt, spd, ts, pwr]` of `Track.points`. -/
structure TrackPoint where
  lat : Option String
  lon : Option String
  alt : Option String
  spd : Option String
  tms : Nat
  pwr : Option String
deriving DecidableEq

/-- The `prev` accumulator of `Track.__init__`: six slots, initially
all `''`; slot 4 (the timestamp position) is set to `None` on update
and never read back. -/
structure PrevState where
  lat : Option String
  lon : Option String
  alt : Option String
  spd : Option String
  tms : Option String
  pwr : Option String
deriving DecidableEq

/-- The initial `prev = [''] * 6`. -/
def prevInit : PrevState :=
  ⟨some "", some "", some "", some "", some "", some ""⟩

/-- Python `x or y` for these optional strings: `x` unless it is
falsy (`None` or `''`). -/
def pyOrO (x y : Option String) : Option String :=
  match x with
  | some s => if s = "" then y else some s
  | none => y

/-- One iteration of the frame loop in `Track.__init__`: drop the frame
when all five extractions are `None`; otherwise apply the `onerror`
policy (`skip` / `empty` / `prev`, any other string filling nothing),
compute `ts = int(frame_idx * 1000 / fps)`, and append one point.
Returns the updated `prev` and the appended points. -/
def trackStep (onerror : String) (fps : Nat) (prev : PrevState) (fr : FrameVals) :
    PrevState × List TrackPoint :=
  if fr.lat = none ∧ fr.lon = none ∧ fr.alt = none ∧ fr.spd = none ∧ fr.pwr = none then
    (prev, [])
  else if onerror = "skip" then
    if fr.lat = none ∨ fr.lon = none ∨ fr.alt = none ∨ fr.spd = none ∨ fr.pwr = none then
      (prev, [])
    else
      (prev, [⟨fr.lat, fr.lon, fr.alt, fr.spd, fr.frameIdx * 1000 / fps, fr.pwr⟩])
  else if onerror = "empty" then
    (prev, [⟨pyOrO fr.lat (some ""), pyOrO fr.lon (some ""), pyOrO fr.alt (some ""),
             pyOrO fr.spd (some ""), fr.frameIdx * 1000 / fps, pyOrO fr.pwr (some "")⟩])
  else if onerror = "prev" then
    let lat := pyOrO fr.lat prev.lat
    let lon := pyOrO fr.lon prev.lon
    let alt := pyOrO fr.alt prev.alt
    let spd := pyOrO fr.spd prev.spd
    let pwr := pyOrO fr.pwr prev.pwr
    (⟨lat, lon, alt, spd, none, pwr⟩,
     [⟨lat, lon, alt, spd, fr.frameIdx * 1000 / fps, pwr⟩])
  else
    (prev, [⟨fr.lat, fr.lon, fr.alt, fr.spd, fr.frameIdx * 1000 / fps, fr.pwr⟩])

/-- The frame loop of `Track.__init__`, threading `prev` and
concatenating the appended points in frame-stream order. -/
def trackRun (onerror : String) (fps : Nat) : PrevState → List FrameVals → List TrackPoint
  | _, [] => []
  | st, fr :: rest =>
    let r := trackStep onerror fps st fr
    r.2 ++ trackRun onerror fps r.1 rest

/-- `Track.points` as a function of the per-frame extraction results:
run the loop from the initial `prev`. -/
def trackPoints (onerror : String) (fps : Nat) (frames : List FrameVals) : List TrackPoint :=
  trackRun onerror fps prevInit frames

/-!
## Transcription of claim C3's power heuristic, for comparison

The next three definitions follow the words of claim C3 (cell one ROW
above / below the candidate, contiguous digit run immediately preceding
`'W'`), not the source; they exist only to be compared against
`extractPower`.
-/

/-- Claim C3's collection rule: the contiguous run of ASCII digits
immediately preceding column `x` in the row. -/
def contigDigitsBefore (line : List Nat) (x : Nat) : List Nat :=
  ((line.take x).reverse.takeWhile (· ∈ digitsCodes)).reverse

/-- Claim C3's scan (with structural fuel) from flat index `idx` on:
accept a `'W'` at `(x, y)` iff the cell one row above `(x, y-1)` is an
ASCII digit and the cell one row below `(x, y+1)` is blank or a space. -/
def extractPowerClaimGo (ar : List Nat) : Nat → Nat → Option (String × Nat)
  | 0, _ => none
  | fuel + 1, idx =>
    if idx < MAX_T then
      let x := idx / MAX_Y
      let y := idx % MAX_Y
      if cell ar x y = 87 ∧ 0 < y ∧ y + 1 < MAX_Y ∧ cell ar x (y - 1) ∈ digitsCodes ∧
          (cell ar x (y + 1) = 0 ∨ cell ar x (y + 1) = 32) then
        some (codesToString (contigDigitsBefore (lineOf ar y) x), 87)
      else extractPowerClaimGo ar fuel (idx + 1)
    else none

/-- Claim C3's power heuristic, scanning the whole grid. -/
def extractPowerClaim (ar : List Nat) : Option (String × Nat) :=
  extractPowerClaimGo ar MAX_T 0

/-!
## Concrete grids, frames and files used as test inputs
-/

/-- Build a grid from a list of `(x, y, code)` assignments over an
all-blank 60×22 grid, in column-major layout. -/
def mkGrid (cells : List (Nat × Nat × Nat)) : List Nat :=
  (List.range MAX_T).map (fun i =>
    match cells.find? (fun c => c.1 * MAX_Y + c.2.1 == i) with
    | some c => c.2.2
    | none => 0)

/-- iNav grid: row 0 is `'7'`, the latitude tag, `'4'`, `'2'`. -/
def cexGrid2 : List Nat := mkGridRow0 [55, CharsInav.LAT, 52, 50]

/-- Betaflight grid: the only `'W'` is at column 5, row 3, with the
digit `'7'` one ROW above it at `(5, 2)` and a blank one row below;
the cells one COLUMN before and after it are blank. -/
def cexGrid3 : List Nat := mkGrid [(5, 3, 87), (5, 2, 55)]

/-- Betaflight grid: `'W'` at `(5, 3)` with digit `'5'` one column
before at `(4, 3)`, a blank one column after, and another digit `'1'`
at `(1, 3)` in the same row, separated from `'5'` by blanks. -/
def grid3w : List Nat := mkGrid [(5, 3, 87), (4, 3, 53), (1, 3, 49)]

/-- iNav grid: row 0 is the latitude tag followed by the split-digit
glyph `0xA1` (which is outside `allowed_chars`). -/
def cexGrid5 : List Nat := mkGridRow0 [CharsInav.LAT, 0xA1]

/-- Betaflight grid: latitude tag followed by `'A'` (not allowed). -/
def grid5bf : List Nat := mkGridRow0 [CharsBetaflight.LAT, 65]

/-- Betaflight grid: `'1'` then the altitude tag (for a backward scan). -/
def grid5bfr : List Nat := mkGridRow0 [49, CharsBetaflight.ALT]

/-- iNav grid: longitude tag followed by `` 0x60 `` (outside
`allowed_chars` and outside both split-digit ranges). -/
def grid5inav : List Nat := mkGridRow0 [CharsInav.LON, 0x60]

/-- iNav grid: `'1'` then the altitude tag (for a backward scan). -/
def grid5inavr : List Nat := mkGridRow0 [49, CharsInav.ALT]

/-- The digit sequence `1`, `2`, `.`, `3` as character codes. -/
def c6Digits : List Nat := [49, 50, 46, 51]

/-- Modelled from the spec: the split-digit glyph encoder of Variant B,
which the repository only decodes. A digit followed by the decimal
point becomes the `0xA1`-range glyph (digit-with-point-after) and the
digit following the point becomes the complementary `0xB1`-range glyph
(point-before-digit), the two sharing the rendered point; characters
not adjacent to a point pass through unchanged. -/
def encodeSplitDigits : List Nat → List Nat
  | a :: 46 :: b :: rest => (0xA1 + (a - 48)) :: (0xB1 + (b - 48)) :: encodeSplitDigits rest
  | c :: rest => c :: encodeSplitDigits rest
  | [] => []

/-- iNav grid for the forward round-trip: latitude tag, then the
encoded `12.3`. -/
def c6FwdGrid : List Nat := mkGridRow0 (CharsInav.LAT :: encodeSplitDigits c6Digits)

/-- iNav grid for the backward round-trip: the encoded `12.3`, then the
altitude tag. -/
def c6BwdGrid : List Nat := mkGridRow0 (encodeSplitDigits c6Digits ++ [CharsInav.ALT])

/-- iNav grid: the km/h speed tag at `(0, 0)` with nothing before it
(its backward value decodes to the empty string), and the mph tag at
`(2, 1)` preceded by `'4'`, `'2'`. -/
def cexGrid9 : List Nat := mkGrid [(0, 0, CharsInav.SPEED_KMPH), (2, 1, CharsInav.SPEED_MPH), (0, 1, 52), (1, 1, 50)]

/-- iNav grid: `'4'` then the km/h speed tag. -/
def gridSpdW : List Nat := mkGridRow0 [52, CharsInav.SPEED_KMPH]

/-- Frame extraction results: only latitude present, value `"12"`. -/
def fr1C7 : FrameVals := ⟨0, some "12", none, none, none, none⟩

/-- Frame extraction results: latitude present but EMPTY (its tag was
found with no digits after it), longitude present with `"9"`. -/
def fr2C7 : FrameVals := ⟨1, some "", some "9", none, none, none⟩

/-- Frame extraction results with all five quantities absent. -/
def frN8 : FrameVals := ⟨7, none, none, none, none, none⟩

/-- A file header byte block: correct magic, version 1, and the
unsupported font variant 3 (ARDUPILOT). -/
def cexHdrBytes4 : List Nat := osdMagic ++ [1, 0] ++ [30, 16, 24, 36, 0, 0, 0, 0, 3]

/-- A complete OSD file: the variant-3 header followed by one full
all-zero frame block. -/
def cexFile4 : List Nat := cexHdrBytes4 ++ List.replicate frameDataSize 0

/-- The parsed header of `cexFile4`. -/
def cexHdr4 : OsdHeader := ⟨osdMagic, 1, 30, 16, 24, 36, 0, 0, 3⟩

/-- A header with the unsupported font variant 5 (QUICKSILVER). -/
def hdr5 : OsdHeader := ⟨osdMagic, 1, 0, 0, 0, 0, 0, 0, 5⟩

/-- Betaflight grid: the only `'W'` is at `(59, 21)` — the last cell of
the last column — and the cell one column before it, `(58, 21)`, is the
digit `'0'`. -/
def grid10a : List Nat := mkGrid [(59, 21, 87), (58, 21, 48)]

/-- Betaflight grid: `'W'` at `(0, 3)` — the first column — and the
digit `'1'` at the OPPOSITE end of the flat array, `(59, 3)`, which the
negative index `idx - MAX_Y` wraps to. -/
def grid10b : List Nat := mkGrid [(0, 3, 87), (59, 3, 49)]

/-!
## Helper lemmas
-/

theorem lineOf_length (ar : List Nat) (y : Nat) : (lineOf ar y).length = MAX_X := by
  simp [lineOf]

theorem lineOf_drop_cons (ar : List Nat) (y k : Nat) (hk : k < MAX_X) :
    (lineOf ar y).drop k = cell ar k y :: (lineOf ar y).drop (k + 1) := by
  have h : k < (lineOf ar y).length := by rw [lineOf_length]; exact hk
  rw [List.drop_eq_getElem_cons h]
  congr 1
  simp [lineOf, cell]

theorem bfExtractValue_found_fwd (ar : List Nat) (tag : Nat) (allowed : List Nat) (idx : Nat)
    (hfind : ar.findIdx? (fun c => c == tag) = some idx) :
    bfExtractValue ar tag false allowed =
      some (codesToString (pyStrip
              (walkAllowed allowed ((lineOf ar (idx % MAX_Y)).drop (idx / MAX_Y + 1))).1),
            (walkAllowed allowed ((lineOf ar (idx % MAX_Y)).drop (idx / MAX_Y + 1))).2) := by
  unfold bfExtractValue
  rw [hfind]
  rfl

theorem bfExtractValue_found_bwd (ar : List Nat) (tag : Nat) (allowed : List Nat) (idx : Nat)
    (hfind : ar.findIdx? (fun c => c == tag) = some idx) :
    bfExtractValue ar tag true allowed =
      some (codesToString (pyStrip
              (walkAllowed allowed
                ((lineOf ar (idx % MAX_Y)).reverse.drop (MAX_X - 1 - idx / MAX_Y + 1))).1.reverse),
            some tag) := by
  unfold bfExtractValue
  rw [hfind]
  rfl

theorem inavExtractValue_found_fwd (ar : List Nat) (tag : Nat) (allowed : List Nat) (idx : Nat)
    (hfind : ar.findIdx? (fun c => c == tag) = some idx) :
    inavExtractValue ar tag false allowed =
      some (codesToString (pyStrip
              (inavWalk false allowed false ((lineOf ar (idx % MAX_Y)).drop (idx / MAX_Y + 1))).1),
            (inavWalk false allowed false ((lineOf ar (idx % MAX_Y)).drop (idx / MAX_Y + 1))).2) := by
  unfold inavExtractValue
  rw [hfind]
  rfl

theorem inavExtractValue_found_bwd (ar : List Nat) (tag : Nat) (allowed : List Nat) (idx : Nat)
    (hfind : ar.findIdx? (fun c => c == tag) = some idx) :
    inavExtractValue ar tag true allowed =
      some (codesToString (pyStrip
              (inavWalk true allowed false
                ((lineOf ar (idx % MAX_Y)).reverse.drop (MAX_X - 1 - idx / MAX_Y + 1))).1.reverse),
            some tag) := by
  unfold inavExtractValue
  rw [hfind]
  rfl

theorem get?_eq_some_getD (ar : List Nat) (k : Nat) (hk : k < ar.length) :
    ar.get? k = some (ar.getD k 0) := by
  rw [List.get?_eq_getElem?]
  simp [List.getD_eq_getElem?_getD, List.getElem?_eq_getElem hk]

theorem pyGetWrap_natCast (ar : List Nat) (k : Nat) (hk : k < ar.length) :
    pyGetWrap ar (k : Int) = some (ar.getD k 0) := by
  have h0 : ¬((k : Int) < 0) := by omega
  unfold pyGetWrap
  rw [if_neg h0, Int.toNat_natCast]
  exact get?_eq_some_getD ar k hk

theorem pyGetWrap_oob (ar : List Nat) (k : Nat) (hk : ar.length ≤ k) :
    pyGetWrap ar (k : Int) = none := by
  have h0 : ¬((k : Int) < 0) := by omega
  unfold pyGetWrap
  rw [if_neg h0, Int.toNat_natCast, List.get?_eq_getElem?]
  simp only [List.getElem?_eq_none_iff]
  omega

theorem pyGetWrap_wrap (ar : List Nat) (j : Nat) (hj : j < MAX_Y) (hlen : ar.length = MAX_T) :
    pyGetWrap ar ((j : Int) - MAX_Y) = some (ar.getD (j + (MAX_T - MAX_Y)) 0) := by
  have h22 : MAX_Y = 22 := rfl
  have hT : MAX_T = 1320 := rfl
  unfold pyGetWrap
  rw [hlen, if_pos (by omega), if_neg (by omega),
    show ((j : Int) - MAX_Y + MAX_T).toNat = j + (MAX_T - MAX_Y) from by omega]
  exact get?_eq_some_getD ar _ (by omega)

theorem walkAllowed_stop (allowed : List Nat) (c : Nat) (rest : List Nat) (h : c ∉ allowed) :
    walkAllowed allowed (c :: rest) = ([], some c) := by
  simp [walkAllowed, h]

theorem inavWalk_stop_fwd (allowed : List Nat) (c : Nat) (rest : List Nat) (hp : Bool)
    (hA : ¬(0xA1 ≤ c ∧ c ≤ 0xAA)) (hB : ¬(0xB1 ≤ c ∧ c ≤ 0xBA)) (h : c ∉ allowed) :
    inavWalk false allowed hp (c :: rest) = ([], some c) := by
  simp [inavWalk, inavExpand, hA, hB, h]

/-!
## Claim theorems
-/

/-- C1 (counterexample): the global header does not occupy 15 bytes —
`struct.calcsize(b'<7sHBBBBHHB')` is 18, so frame 0 is not read from
byte offset `15 + 0 × 2648`. -/
theorem c1_header_size_cex : readerHeaderSize = 18 ∧ frameOffset 0 ≠ 15 + 0 * 2648 := by
  decide

/-- C1 (amended): the global header occupies exactly 18 bytes, the
frame block size is 8 + 2×1320 = 2648 bytes, and `Reader.get_frame`
seeks frame `i` to absolute byte offset `18 + i × 2648`. -/
theorem c1_frame_offset : readerHeaderSize = 18 ∧ frameDataSize = 2648 ∧
    ∀ i, frameOffset i = 18 + i * 2648 := by
  refine ⟨rfl, rfl, fun i => ?_⟩
  show 18 + 2648 * i = 18 + i * 2648
  omega

/-- C2 (counterexample): on a Variant B (iNav) grid whose row 0 reads
`'7'`, latitude tag, `'4'`, `'2'`, latitude extraction returns the
characters FOLLOWING the tag (`"42"`), not the backward-scan result
(`"7"`): latitude is extracted with a forward scan. -/
theorem c2_latlon_forward_cex :
    inavExtractLat cexGrid2 = some ("42", some 0) ∧
    inavExtractValue cexGrid2 CharsInav.LAT true allowedDefault = some ("7", some CharsInav.LAT) ∧
    inavExtractLat cexGrid2 ≠ inavExtractValue cexGrid2 CharsInav.LAT true allowedDefault := by
  decide

/-- C2 (amended): for every Variant B (iNav) frame, altitude, speed and
power are extracted with a backward scan (`reverse=True`), while
latitude and longitude are extracted with a forward scan
(`reverse=False`); every speed result comes from a backward scan of one
of the three speed tags. -/
theorem c2_scan_directions : ∀ ar : List Nat,
    inavExtractLat ar = inavExtractValue ar CharsInav.LAT false allowedDefault ∧
    inavExtractLon ar = inavExtractValue ar CharsInav.LON false allowedDefault ∧
    inavExtractAlt ar = inavExtractValue ar CharsInav.ALT true allowedDefault ∧
    inavExtractPower ar = inavExtractValue ar CharsInav.WATT true allowedDefault ∧
    ∀ r, inavExtractSpeed ar = some r →
      inavExtractValue ar CharsInav.SPEED_KMPH true allowedDefault = some r ∨
      inavExtractValue ar CharsInav.SPEED_MPH true allowedDefault = some r ∨
      inavExtractValue ar CharsInav.SPEED_KT true allowedDefault = some r := by
  intro ar
  refine ⟨rfl, rfl, rfl, rfl, ?_⟩
  intro r h
  unfold inavExtractSpeed at h
  dsimp only at h
  split_ifs at h with h1 h2 h3
  · exact Or.inl h
  · exact Or.inr (Or.inl h)
  · exact Or.inr (Or.inr h)

/-- Witness for C2's amended theorem: the speed value of a concrete
grid comes from a backward scan of one of the three speed tags. -/
theorem c2_scan_directions_witness :
    inavExtractValue gridSpdW CharsInav.SPEED_KMPH true allowedDefault
      = some ("4", some CharsInav.SPEED_KMPH) ∨
    inavExtractValue gridSpdW CharsInav.SPEED_MPH true allowedDefault
      = some ("4", some CharsInav.SPEED_KMPH) ∨
    inavExtractValue gridSpdW CharsInav.SPEED_KT true allowedDefault
      = some ("4", some CharsInav.SPEED_KMPH) :=
  (c2_scan_directions gridSpdW).2.2.2.2 ("4", some CharsInav.SPEED_KMPH) (by decide)

/-- C6: encoding the digit sequence 1, 2, ., 3 into Variant B's
split-digit glyphs and decoding with `FrameInav.extract_value`
reproduces the string `"12.3"` exactly, both for the forward scan
(latitude) and for the backward scan (altitude). -/
theorem c6_split_digit_roundtrip :
    inavExtractLat c6FwdGrid = some ("12.3", some 0) ∧
    inavExtractAlt c6BwdGrid = some ("12.3", some CharsInav.ALT) := by
  decide

/-- C5 (counterexample): on an iNav grid where the glyph immediately
following the tag is the split-digit glyph `0xA1` — which is outside
`allowed_chars` — the forward terminator is NOT `0xA1`: the glyph is
expanded to `"0."` and consumed, and the walk terminates later on the
blank, returning terminator `0`. -/
theorem c5_terminator_cex :
    cexGrid5.findIdx? (fun c => c == CharsInav.LAT) = some 0 ∧
    cell cexGrid5 1 0 = 0xA1 ∧ (0xA1 : Nat) ∉ allowedDefault ∧
    inavExtractValue cexGrid5 CharsInav.LAT false allowedDefault = some ("0.", some 0) ∧
    (inavExtractValue cexGrid5 CharsInav.LAT false allowedDefault).map (fun p => p.2)
      ≠ some (some 0xA1) := by
  decide

/-- C5 (amended): for every grid containing the tag glyph (first
occurrence at flat index `idx`), with a glyph `g` outside
`allowed_chars` immediately following the tag in its row, the forward
scan of `FrameBetaflight.extract_value` terminates at once and returns
terminator `g`; `FrameInav.extract_value` does the same provided `g` is
also outside both split-digit ranges 0xA1–0xAA and 0xB1–0xBA (a
split-digit glyph is instead expanded and may be consumed); and for
both classes the backward scan always reports the tag glyph itself as
terminator once the tag is found. -/
theorem c5_terminator :
    (∀ ar tag allowed idx g, ar.findIdx? (fun c => c == tag) = some idx →
      idx / MAX_Y + 1 < MAX_X →
      cell ar (idx / MAX_Y + 1) (idx % MAX_Y) = g → g ∉ allowed →
      bfExtractValue ar tag false allowed = some ("", some g)) ∧
    (∀ ar tag allowed idx, ar.findIdx? (fun c => c == tag) = some idx →
      (bfExtractValue ar tag true allowed).map (fun p => p.2) = some (some tag)) ∧
    (∀ ar tag allowed idx g, ar.findIdx? (fun c => c == tag) = some idx →
      idx / MAX_Y + 1 < MAX_X →
      cell ar (idx / MAX_Y + 1) (idx % MAX_Y) = g → g ∉ allowed →
      ¬(0xA1 ≤ g ∧ g ≤ 0xAA) → ¬(0xB1 ≤ g ∧ g ≤ 0xBA) →
      inavExtractValue ar tag false allowed = some ("", some g)) ∧
    (∀ ar tag allowed idx, ar.findIdx? (fun c => c == tag) = some idx →
      (inavExtractValue ar tag true allowed).map (fun p => p.2) = some (some tag)) := by
  refine ⟨?_, ?_, ?_, ?_⟩
  · intro ar tag allowed idx g hfind hx hcell hg
    rw [bfExtractValue_found_fwd ar tag allowed idx hfind,
        lineOf_drop_cons ar (idx % MAX_Y) (idx / MAX_Y + 1) hx, hcell,
        walkAllowed_stop allowed g _ hg]
    rfl
  · intro ar tag allowed idx hfind
    rw [bfExtractValue_found_bwd ar tag allowed idx hfind]
    rfl
  · intro ar tag allowed idx g hfind hx hcell hg hA hB
    rw [inavExtractValue_found_fwd ar tag allowed idx hfind,
        lineOf_drop_cons ar (idx % MAX_Y) (idx / MAX_Y + 1) hx, hcell,
        inavWalk_stop_fwd allowed g _ false hA hB hg]
    rfl
  · intro ar tag allowed idx hfind
    rw [inavExtractValue_found_bwd ar tag allowed idx hfind]
    rfl

/-- Witness for C5's amended theorem at concrete grids: a Betaflight
forward terminator (`'A'` after the latitude tag), a Betaflight
backward terminator (the altitude tag itself), an iNav forward
terminator (`` 0x60 `` after the longitude tag), and an iNav backward
terminator (the altitude tag itself). -/
theorem c5_terminator_witness :
    bfExtractValue grid5bf CharsBetaflight.LAT false allowedDefault = some ("", some 65) ∧
    (bfExtractValue grid5bfr CharsBetaflight.ALT true allowedDefault).map (fun p => p.2)
      = some (some CharsBetaflight.ALT) ∧
    inavExtractValue grid5inav CharsInav.LON false allowedDefault = some ("", some 96) ∧
    (inavExtractValue grid5inavr CharsInav.ALT true allowedDefault).map (fun p => p.2)
      = some (some CharsInav.ALT) :=
  ⟨c5_terminator.1 grid5bf CharsBetaflight.LAT allowedDefault 0 65
      (by decide) (by decide) (by decide) (by decide),
   c5_terminator.2.1 grid5bfr CharsBetaflight.ALT allowedDefault 22 (by decide),
   c5_terminator.2.2.1 grid5inav CharsInav.LON allowedDefault 0 96
      (by decide) (by decide) (by decide) (by decide) (by decide) (by decide),
   c5_terminator.2.2.2 grid5inavr CharsInav.ALT allowedDefault 22 (by decide)⟩

theorem colrow_div (x y : Nat) (hy : y < MAX_Y) : (x * MAX_Y + y) / MAX_Y = x := by
  rw [Nat.mul_comm, Nat.mul_add_div (by decide : 0 < MAX_Y), Nat.div_eq_of_lt hy]
  rfl

theorem extractPowerFrom_step (ar : List Nat) (idx : Nat) :
    extractPowerFrom ar idx =
      if idx < ar.length then
        if ar.getD idx 0 = 87 then
          match pyGetWrap ar ((idx : Int) - MAX_Y) with
          | none => Except.error ()
          | some c1 =>
            if c1 ∈ digitsCodes then
              match pyGetWrap ar ((idx : Int) + MAX_Y) with
              | none => Except.error ()
              | some c2 =>
                if c2 = 0 ∨ c2 = 32 then
                  Except.ok (some (codesToString
                    (rowDigits (lineOf ar (idx % MAX_Y)) (idx / MAX_Y)), 87))
                else extractPowerFrom ar (idx + 1)
            else extractPowerFrom ar (idx + 1)
        else extractPowerFrom ar (idx + 1)
      else Except.ok none := by
  rcases Nat.lt_or_ge idx ar.length with h | h
  · have hf : ar.length - idx = (ar.length - (idx + 1)) + 1 := by omega
    unfold extractPowerFrom
    rw [hf]
    rw [if_pos h, extractPowerGo, if_pos h]
  · have hf : ar.length - idx = 0 := by omega
    unfold extractPowerFrom
    rw [hf, if_neg (by omega)]
    rfl

theorem colrow_mod (x y : Nat) (hy : y < MAX_Y) : (x * MAX_Y + y) % MAX_Y = y := by
  rw [Nat.mul_comm, Nat.mul_add_mod]
  exact Nat.mod_eq_of_lt hy

theorem extractPowerFrom_oob (ar : List Nat) (idx : Nat) (h : ar.length ≤ idx) :
    extractPowerFrom ar idx = Except.ok none := by
  rw [extractPowerFrom_step, if_neg (by omega)]

theorem extractPowerFrom_skip (ar : List Nat) :
    ∀ n idx, (((ar.drop idx).take n).all (fun c => c != 87)) = true →
      extractPowerFrom ar idx = extractPowerFrom ar (idx + n)
  | 0, idx, _ => rfl
  | n + 1, idx, hW => by
    rcases Nat.lt_or_ge idx ar.length with h | h
    · rw [List.drop_eq_getElem_cons h, List.take_succ_cons, List.all_cons,
        Bool.and_eq_true, bne_iff_ne] at hW
      have h87 : ar.getD idx 0 ≠ 87 := by
        rw [List.getD_eq_getElem?_getD, List.getElem?_eq_getElem h]
        exact hW.1
      rw [extractPowerFrom_step, if_pos h, if_neg h87,
        extractPowerFrom_skip ar n (idx + 1) hW.2,
        show idx + 1 + n = idx + (n + 1) from by omega]
    · rw [extractPowerFrom_oob ar idx h, extractPowerFrom_oob ar (idx + (n + 1)) (by omega)]

/-- C3 (counterexample): a grid satisfying the claim's acceptance
conditions — `'W'` at `(5, 3)` with an ASCII digit one ROW above
(`(5, 2)`) and a blank one row below (`(5, 4)`) — for which the claim's
algorithm accepts (yielding `("", 'W')`), yet `extract_power` returns
`(None, None)`: the code actually tests `ar[idx ± MAX_Y]`, the cells
one COLUMN before/after the candidate in the column-major array. -/
theorem c3_power_cex :
    cell cexGrid3 5 3 = 87 ∧ cell cexGrid3 5 2 ∈ digitsCodes ∧ cell cexGrid3 5 4 = 0 ∧
    extractPowerClaim cexGrid3 = some ("", 87) ∧
    extractPower cexGrid3 = Except.ok none := by
  have e1 : extractPowerFrom cexGrid3 0 = extractPowerFrom cexGrid3 (0 + 113) :=
    extractPowerFrom_skip cexGrid3 113 0 (by decide)
  have e2 : extractPowerFrom cexGrid3 113 = extractPowerFrom cexGrid3 114 := by
    rw [extractPowerFrom_step, if_pos (by decide : (113 : Nat) < cexGrid3.length),
      if_pos (by decide : cexGrid3.getD 113 0 = 87),
      show ((113 : Nat) : Int) - MAX_Y = ((91 : Nat) : Int) from by decide,
      pyGetWrap_natCast cexGrid3 91 (by decide)]
    dsimp only
    rw [if_neg (by decide : ¬(cexGrid3.getD 91 0 ∈ digitsCodes))]
  have e3 : extractPowerFrom cexGrid3 114 = extractPowerFrom cexGrid3 (114 + 1206) :=
    extractPowerFrom_skip cexGrid3 1206 114 (by decide)
  have e4 : extractPowerFrom cexGrid3 1320 = Except.ok none :=
    extractPowerFrom_oob cexGrid3 1320 (by decide)
  refine ⟨by decide, by decide, by decide, by decide, ?_⟩
  show extractPowerFrom cexGrid3 0 = Except.ok none
  calc extractPowerFrom cexGrid3 0
      = extractPowerFrom cexGrid3 (0 + 113) := e1
    _ = extractPowerFrom cexGrid3 114 := by rw [show (0 + 113 : Nat) = 113 from rfl, e2]
    _ = extractPowerFrom cexGrid3 (114 + 1206) := e3
    _ = Except.ok none := by rw [show (114 + 1206 : Nat) = 1320 from rfl, e4]

/-- C3 (amended): the power heuristic scans the flat column-major
array for `'W'`; a candidate at column `x`, row `y` (away from the
first and last columns) is accepted if and only if the cell one COLUMN
before it (same row) is an ASCII digit and the cell one column after it
is blank (0) or a space; on acceptance it returns ALL the ASCII digits
of the row at columns `≤ x` (not only the contiguous run) with `'W'` as
terminator; a rejected or non-`'W'` cell passes the scan on to the next
flat index; the scan ends in `(None, None)`; and `extract_power` is the
scan started at index 0. -/
theorem c3_power_geometry :
    (∀ ar x y, ar.length = MAX_T → 1 ≤ x → x + 1 < MAX_X → y < MAX_Y →
      cell ar x y = 87 →
      extractPowerFrom ar (x * MAX_Y + y) =
        if cell ar (x - 1) y ∈ digitsCodes then
          if cell ar (x + 1) y = 0 ∨ cell ar (x + 1) y = 32 then
            Except.ok (some (codesToString (rowDigits (lineOf ar y) x), 87))
          else extractPowerFrom ar (x * MAX_Y + y + 1)
        else extractPowerFrom ar (x * MAX_Y + y + 1)) ∧
    (∀ ar, extractPower ar = extractPowerFrom ar 0) ∧
    (∀ ar, ar.length = MAX_T → extractPowerFrom ar MAX_T = Except.ok none) ∧
    (∀ ar idx, idx < ar.length → ar.getD idx 0 ≠ 87 →
      extractPowerFrom ar idx = extractPowerFrom ar (idx + 1)) := by
  have h22 : MAX_Y = 22 := rfl
  have hX : MAX_X = 60 := rfl
  have hT : MAX_T = 1320 := rfl
  refine ⟨?_, fun ar => rfl, ?_, ?_⟩
  · intro ar x y hlen hx1 hx2 hy hW
    obtain ⟨x1, rfl⟩ : ∃ x1, x = x1 + 1 := ⟨x - 1, by omega⟩
    simp only [cell] at hW ⊢
    simp only [Nat.add_sub_cancel]
    have hidx : (x1 + 1) * MAX_Y + y < ar.length := by
      rw [hlen, hT, h22]; omega
    rw [extractPowerFrom_step, if_pos hidx, if_pos hW,
      show (((x1 + 1) * MAX_Y + y : Nat) : Int) - MAX_Y = ((x1 * MAX_Y + y : Nat) : Int) from by
        rw [h22]; push_cast; ring,
      pyGetWrap_natCast ar (x1 * MAX_Y + y) (by rw [hlen, hT, h22]; omega)]
    dsimp only
    rw [show (((x1 + 1) * MAX_Y + y : Nat) : Int) + MAX_Y = (((x1 + 2) * MAX_Y + y : Nat) : Int)
          from by rw [h22]; push_cast; ring,
      pyGetWrap_natCast ar ((x1 + 2) * MAX_Y + y) (by rw [hlen, hT, h22]; omega)]
    dsimp only
    rw [colrow_div (x1 + 1) y hy, colrow_mod (x1 + 1) y hy]
  · intro ar hlen
    rw [extractPowerFrom_step, if_neg (by omega)]
  · intro ar idx h hW
    rw [extractPowerFrom_step, if_pos h, if_neg hW]

/-- Witness for C3's amended theorem: on a concrete grid with `'W'` at
`(5, 3)`, digit `'5'` one column before, blank one column after, and a
further digit `'1'` at `(1, 3)` separated by blanks, the scan step at
the candidate accepts and returns ALL the row's digits, `"15"`. -/
theorem c3_power_geometry_witness :
    extractPowerFrom grid3w (5 * MAX_Y + 3) = Except.ok (some ("15", 87)) := by
  rw [c3_power_geometry.1 grid3w 5 3 rfl (by decide) (by decide) (by decide) (by decide)]
  rfl

/-- C10: the power heuristic is not total. (a) If the scan reaches a
`'W'` in the last grid column whose preceding-column cell is an ASCII
digit, the access `ar[idx + MAX_Y]` is out of range and the scan raises
`IndexError` instead of returning. (b) For a `'W'` in the first column,
the check `ar[idx - MAX_Y]` does not fail: the negative index wraps to
the cell at flat position `idx + (MAX_T - MAX_Y)`, at the opposite end
of the glyph array, whose value decides the candidate. -/
theorem c10_power_index_overflow :
    (∀ ar j, ar.length = MAX_T → MAX_T - MAX_Y ≤ j → j < MAX_T →
      ar.getD j 0 = 87 → ar.getD (j - MAX_Y) 0 ∈ digitsCodes →
      extractPowerFrom ar j = Except.error ()) ∧
    (∀ ar j, ar.length = MAX_T → j < MAX_Y → ar.getD j 0 = 87 →
      extractPowerFrom ar j =
        if ar.getD (j + (MAX_T - MAX_Y)) 0 ∈ digitsCodes then
          if ar.getD (j + MAX_Y) 0 = 0 ∨ ar.getD (j + MAX_Y) 0 = 32 then
            Except.ok (some (codesToString (rowDigits (lineOf ar (j % MAX_Y)) (j / MAX_Y)), 87))
          else extractPowerFrom ar (j + 1)
        else extractPowerFrom ar (j + 1)) := by
  have h22 : MAX_Y = 22 := rfl
  have hT : MAX_T = 1320 := rfl
  constructor
  · intro ar j hlen hj1 hj2 hW hd
    rw [extractPowerFrom_step, if_pos (by omega), if_pos hW,
      show ((j : Nat) : Int) - MAX_Y = ((j - MAX_Y : Nat) : Int) from by omega,
      pyGetWrap_natCast ar (j - MAX_Y) (by omega)]
    dsimp only
    rw [if_pos hd,
      show ((j : Nat) : Int) + MAX_Y = ((j + MAX_Y : Nat) : Int) from by omega,
      pyGetWrap_oob ar (j + MAX_Y) (by omega)]
  · intro ar j hlen hj hW
    rw [extractPowerFrom_step, if_pos (by omega), if_pos hW,
      pyGetWrap_wrap ar j hj hlen]
    dsimp only
    rw [show ((j : Nat) : Int) + MAX_Y = ((j + MAX_Y : Nat) : Int) from by omega,
      pyGetWrap_natCast ar (j + MAX_Y) (by omega)]

/-- Witness for C10 at concrete grids: the scan step raises at the
last-column `'W'` of `grid10a`, and at the first-column `'W'` of
`grid10b` it consults the wrapped far-end cell `(59, 3)` (a digit) and
accepts. -/
theorem c10_power_index_overflow_witness :
    extractPowerFrom grid10a 1319 = Except.error () ∧
    extractPowerFrom grid10b 3 = Except.ok (some ("", 87)) := by
  constructor
  · exact c10_power_index_overflow.1 grid10a 1319 rfl (by decide) (by decide)
      (by decide) (by decide)
  · rw [c10_power_index_overflow.2 grid10b 3 rfl (by decide) (by decide)]
    rfl

theorem cexFile4_block_length :
    ((cexFile4.drop (frameOffset 0)).take frameDataSize).length = frameDataSize := by
  show (((cexHdrBytes4 ++ List.replicate frameDataSize 0).drop
    (frameOffset 0)).take frameDataSize).length = frameDataSize
  rw [show frameOffset 0 = cexHdrBytes4.length from rfl, List.drop_left]
  simp

/-- C4 (counterexample): a file whose header has the correct magic and
version but the unsupported font variant 3 (ARDUPILOT): `Reader.__init__`
ACCEPTS it — stream open succeeds, contradicting "rejected fatally at
stream open" — and the `NotImplementedError` is raised only later, by
`get_frame` on a full-size frame block. -/
theorem c4_open_accepts_cex :
    readerInit cexFile4 = Except.ok cexHdr4 ∧
    cexHdr4.font_variant = 3 ∧
    getFrame cexFile4 cexHdr4 0 = Except.error (PyError.notImplemented 3) := by
  refine ⟨by decide, by decide, ?_⟩
  unfold getFrame
  dsimp only
  rw [if_neg (fun hne => hne cexFile4_block_length),
    if_neg (by decide : ¬(cexHdr4.font_variant = 1)),
    if_neg (by decide : ¬(cexHdr4.font_variant = 2))]
  rfl

/-- C4 (amended): stream open (`Reader.__init__`) validates only magic
and version and succeeds for EVERY font-variant byte; an unsupported
variant (neither 1 nor 2) is rejected with `NotImplementedError` at
frame retrieval, by `get_frame` when the frame block is full-size; a
short read returns end-of-stream (`None`) before the variant is ever
examined. -/
theorem c4_variant_checked_at_get_frame :
    (∀ (cw ch fw fh xo0 xo1 yo0 yo1 v : Nat) (rest : List Nat),
      readerInit (osdMagic ++ [1, 0] ++ [cw, ch, fw, fh, xo0, xo1, yo0, yo1, v] ++ rest) =
        Except.ok ⟨osdMagic, 1, cw, ch, fw, fh, leU16 xo0 xo1, leU16 yo0 yo1, v⟩) ∧
    (∀ (file : List Nat) (hdr : OsdHeader) (i : Nat),
      hdr.font_variant ≠ 1 → hdr.font_variant ≠ 2 →
      ((file.drop (frameOffset i)).take frameDataSize).length = frameDataSize →
      getFrame file hdr i = Except.error (PyError.notImplemented hdr.font_variant)) ∧
    (∀ (file : List Nat) (hdr : OsdHeader) (i : Nat),
      ((file.drop (frameOffset i)).take frameDataSize).length ≠ frameDataSize →
      getFrame file hdr i = Except.ok none) := by
  refine ⟨?_, ?_, ?_⟩
  · intro cw ch fw fh xo0 xo1 yo0 yo1 v rest
    rfl
  · intro file hdr i h1 h2 h3
    unfold getFrame
    dsimp only
    rw [if_neg (fun hne => hne h3), if_neg h1, if_neg h2]
  · intro file hdr i h3
    unfold getFrame
    dsimp only
    rw [if_pos h3]

/-- Witness for C4's amended theorem: the variant-5 header raises
`NotImplementedError` at `get_frame` on a full block, and on an empty
file `get_frame` reports end-of-stream before checking the variant. -/
theorem c4_variant_checked_at_get_frame_witness :
    getFrame cexFile4 hdr5 0 = Except.error (PyError.notImplemented 5) ∧
    getFrame [] hdr5 0 = Except.ok none :=
  ⟨c4_variant_checked_at_get_frame.2.1 cexFile4 hdr5 0 (by decide) (by decide)
      cexFile4_block_length,
   c4_variant_checked_at_get_frame.2.2 [] hdr5 0 (by decide)⟩

/-- C7 (counterexample): under the `prev` policy an extracted EMPTY
string (tag found but no digits) — a present, not absent, value — is
also replaced by the previous value: frame 2 carries `lat = some ""`,
yet its emitted latitude is `"12"` from frame 1, not `""`. -/
theorem c7_prev_fills_empty_cex :
    fr2C7.lat = some "" ∧
    trackPoints "prev" 60 [fr1C7, fr2C7] =
      [⟨some "12", some "", some "", some "", 0, some ""⟩,
       ⟨some "12", some "9", some "", some "", 16, some ""⟩] := by
  refine ⟨rfl, by decide⟩

/-- C7 (amended): under the `prev` policy, for every non-dropped frame
each emitted quantity is `pyOrO extracted previous` — the extracted
value when it is a non-empty string, the previous value when it is
absent (`None`) OR the empty string; the filled values (with `None` in
the timestamp slot) become the new `prev` state; the timestamp is
computed fresh from `frame_idx` and never carried over. -/
theorem c7_prev_policy :
    (∀ fps st fr,
      ¬(fr.lat = none ∧ fr.lon = none ∧ fr.alt = none ∧ fr.spd = none ∧ fr.pwr = none) →
      trackStep "prev" fps st fr =
        (⟨pyOrO fr.lat st.lat, pyOrO fr.lon st.lon, pyOrO fr.alt st.alt, pyOrO fr.spd st.spd,
          none, pyOrO fr.pwr st.pwr⟩,
         [⟨pyOrO fr.lat st.lat, pyOrO fr.lon st.lon, pyOrO fr.alt st.alt, pyOrO fr.spd st.spd,
           fr.frameIdx * 1000 / fps, pyOrO fr.pwr st.pwr⟩])) ∧
    (∀ y, pyOrO none y = y) ∧
    (∀ y, pyOrO (some "") y = y) ∧
    (∀ s y, s ≠ "" → pyOrO (some s) y = some s) := by
  refine ⟨?_, fun y => rfl, fun y => by simp [pyOrO], fun s y hs => by simp [pyOrO, hs]⟩
  intro fps st fr h
  unfold trackStep
  rw [if_neg h, if_neg (show ¬(("prev" : String) = "skip") from by decide),
    if_neg (show ¬(("prev" : String) = "empty") from by decide),
    if_pos (rfl : ("prev" : String) = "prev")]

/-- Witness for C7's amended theorem at the first concrete frame: only
latitude is present, so the other four quantities are filled from the
initial empty-string state, and the filled values become `prev`. -/
theorem c7_prev_policy_witness :
    trackStep "prev" 60 prevInit fr1C7 =
      (⟨some "12", some "", some "", some "", none, some ""⟩,
       [⟨some "12", some "", some "", some "", 0, some ""⟩]) :=
  (c7_prev_policy.1 60 prevInit fr1C7 (by decide)).trans (by decide)

/-- C8: a frame whose five quantity extractions are all absent
contributes no track point: removing it from any position of the frame
sequence leaves the built track unchanged, for every `onerror` policy,
every fps and every starting `prev` state. -/
theorem c8_all_absent_dropped :
    ∀ (onerror : String) (fps : Nat) (st : PrevState) (pre post : List FrameVals)
      (fr : FrameVals),
      fr.lat = none → fr.lon = none → fr.alt = none → fr.spd = none → fr.pwr = none →
      trackRun onerror fps st (pre ++ fr :: post) = trackRun onerror fps st (pre ++ post) := by
  intro onerror fps st pre post fr h1 h2 h3 h4 h5
  induction pre generalizing st with
  | nil =>
    have hstep : trackStep onerror fps st fr = (st, []) := by
      unfold trackStep
      rw [if_pos ⟨h1, h2, h3, h4, h5⟩]
    show (trackStep onerror fps st fr).2
        ++ trackRun onerror fps (trackStep onerror fps st fr).1 post
      = trackRun onerror fps st post
    rw [hstep]
    exact List.nil_append _
  | cons p pre ih =>
    simp only [List.cons_append]
    unfold trackRun
    exact congrArg _ (ih _)

/-- Witness for C8: a concrete all-absent frame yields an empty track
under the `skip` policy. -/
theorem c8_all_absent_dropped_witness : trackPoints "skip" 60 [frN8] = [] := by
  calc trackPoints "skip" 60 [frN8]
      = trackRun "skip" 60 prevInit ([] ++ frN8 :: []) := by rfl
    _ = trackRun "skip" 60 prevInit ([] ++ []) :=
        c8_all_absent_dropped "skip" 60 prevInit [] [] frN8 rfl rfl rfl rfl rfl
    _ = [] := by rfl

/-- C9 (counterexample): a Variant B grid that CONTAINS the km/h tag —
the first of the three speed tags, whose backward value decodes to the
empty string — and the mph tag preceded by `"42"`: `extract_speed`
returns the mph result, not the first present tag's result, because
`if v:` treats the empty string as failure. -/
theorem c9_speed_priority_cex :
    (cexGrid9.findIdx? (fun c => c == CharsInav.SPEED_KMPH)).isSome = true ∧
    inavExtractValue cexGrid9 CharsInav.SPEED_KMPH true allowedDefault
      = some ("", some CharsInav.SPEED_KMPH) ∧
    inavExtractSpeed cexGrid9 = some ("42", some CharsInav.SPEED_MPH) ∧
    inavExtractSpeed cexGrid9
      ≠ inavExtractValue cexGrid9 CharsInav.SPEED_KMPH true allowedDefault := by
  refine ⟨by decide, by decide, by decide, by decide⟩

/-- C9 (amended): speed extraction tries the km/h, mph and knots tags
in that fixed priority order, and the first tag whose backward-decoded
value is truthy — found AND non-empty — wins; a tag that is present but
decodes to the empty string is passed over, and `(None, None)` is
returned when no tag yields a non-empty value. -/
theorem c9_speed_priority :
    ∀ ar : List Nat,
      (pyTruthy (inavExtractValue ar CharsInav.SPEED_KMPH true allowedDefault) = true →
        inavExtractSpeed ar = inavExtractValue ar CharsInav.SPEED_KMPH true allowedDefault) ∧
      (pyTruthy (inavExtractValue ar CharsInav.SPEED_KMPH true allowedDefault) = false →
        pyTruthy (inavExtractValue ar CharsInav.SPEED_MPH true allowedDefault) = true →
        inavExtractSpeed ar = inavExtractValue ar CharsInav.SPEED_MPH true allowedDefault) ∧
      (pyTruthy (inavExtractValue ar CharsInav.SPEED_KMPH true allowedDefault) = false →
        pyTruthy (inavExtractValue ar CharsInav.SPEED_MPH true allowedDefault) = false →
        pyTruthy (inavExtractValue ar CharsInav.SPEED_KT true allowedDefault) = true →
        inavExtractSpeed ar = inavExtractValue ar CharsInav.SPEED_KT true allowedDefault) ∧
      (pyTruthy (inavExtractValue ar CharsInav.SPEED_KMPH true allowedDefault) = false →
        pyTruthy (inavExtractValue ar CharsInav.SPEED_MPH true allowedDefault) = false →
        pyTruthy (inavExtractValue ar CharsInav.SPEED_KT true allowedDefault) = false →
        inavExtractSpeed ar = none) := by
  intro ar
  have hn : ∀ b : Bool, b = false → ¬(b = true) := by
    intro b hb
    rw [hb]
    exact Bool.false_ne_true
  refine ⟨?_, ?_, ?_, ?_⟩
  · intro h1
    unfold inavExtractSpeed
    dsimp only
    rw [if_pos h1]
  · intro h1 h2
    unfold inavExtractSpeed
    dsimp only
    rw [if_neg (hn _ h1), if_pos h2]
  · intro h1 h2 h3
    unfold inavExtractSpeed
    dsimp only
    rw [if_neg (hn _ h1), if_neg (hn _ h2), if_pos h3]
  · intro h1 h2 h3
    unfold inavExtractSpeed
    dsimp only
    rw [if_neg (hn _ h1), if_neg (hn _ h2), if_neg (hn _ h3)]

/-- Witness for C9's amended theorem at the concrete grid: km/h decodes
empty, mph decodes non-empty, so the mph result is returned. -/
theorem c9_speed_priority_witness :
    inavExtractSpeed cexGrid9 = inavExtractValue cexGrid9 CharsInav.SPEED_MPH true allowedDefault :=
  (c9_speed_priority cexGrid9).2.1 (by decide) (by decide)

